import Mathlib

/-!
Shallow embedding of the pavao SMB client (`src/pavao/src/smb/client.rs`) and
proofs about its behaviour.  Strings that cross the C boundary are modelled as
lists of bytes where byte-level truncation matters, and as `String` elsewhere.
Native pointers are modelled by their signed 64-bit integer value (`0` = null);
the engine (libsmbclient) is modelled as explicit input data describing the
results of its calls, since it is an external black box.
-/

set_option autoImplicit false

namespace Pavao

/-- Modelled from the spec: the typed error taxonomy of §7 (the error module is
not among the given sources).  `io code` wraps a platform error code from a
negative native return; `unsupportedOperation` marks an absent capability
pointer. -/
inductive SmbError where
  | engineInitError
  | badFileDescriptor
  | badValue
  | unsupportedOperation
  | io (code : Int)
deriving DecidableEq, Repr

/-- Capability resolver, from `SmbClient::get_fn` (client.rs lines 418-424):
the fetched function pointer is `Option T`; an absent pointer is an error.
The conversion of that error into the typed taxonomy is not among the given
sources and is modelled from the spec (§4.4, §4.8: missing capability pointer
becomes `UnsupportedOperation`). -/
def get_fn {T : Type} (f : Option T) : Except SmbError T :=
  match f with
  | some g => Except.ok g
  | none => Except.error SmbError.unsupportedOperation

/-- Credential set, from the spec data model §3 (the `SmbCredentials` module is
not among the given sources).  The three strings handed to the auth callback
are kept as raw byte lists. -/
structure SmbCredentials where
  server : List Nat
  share : List Nat
  workgroup : List Nat
  username : List Nat
  password : List Nat
deriving DecidableEq, Repr

/-- Modelled from the spec: `utils::write_to_cstr` (utils module not among the
given sources); §4.3: the bridge copies each string into its destination
buffer truncated to the buffer's declared length, null-terminating within
bounds.  The result is the exact list of bytes written to the buffer. -/
def write_to_cstr (len : Nat) (s : List Nat) : List Nat :=
  if len = 0 then [] else s.take (len - 1) ++ [0]

/-- Identity key derived from a context address, from
`SmbClient::auth_service_uuid` (client.rs lines 472-474): the debug-format of
the raw pointer; the context address is modelled as a `Nat`. -/
def auth_service_uuid (ctx : Nat) : String :=
  toString ctx

/-- Modelled from the spec: the Credential Registry (§4.2, `AuthService` not
among the given sources), an association list from identity to credentials. -/
abbrev AuthRegistry := List (String × SmbCredentials)

/-- Registry lookup returning the first entry for a key, if any. -/
def auth_lookup (r : AuthRegistry) (k : String) : Option SmbCredentials :=
  match r with
  | [] => none
  | (k', c) :: rest => if k' = k then some c else auth_lookup rest k

/-- Modelled from the spec: `AuthService::insert` (§4.2). -/
def auth_insert (r : AuthRegistry) (k : String) (c : SmbCredentials) : AuthRegistry :=
  (k, c) :: r

/-- Modelled from the spec: `AuthService::get` fails safe, returning an
empty/default credential set when the identity is absent (§4.2). -/
def auth_get (r : AuthRegistry) (k : String) : SmbCredentials :=
  match auth_lookup r k with
  | some c => c
  | none => ⟨[], [], [], [], []⟩

/-- Modelled from the spec: `AuthService::remove` (§4.2). -/
def auth_remove (r : AuthRegistry) (k : String) : AuthRegistry :=
  r.filter (fun p => p.1 ≠ k)

/-- Authentication callback, from `SmbClient::auth_wrapper` (client.rs lines
446-470): derive the identity from the context pointer, fetch credentials from
the registry, and write workgroup, username and password into the three
destination buffers via `write_to_cstr`.  The result is the triple of byte
lists actually written. -/
def auth_wrapper (r : AuthRegistry) (ctx : Nat) (wglen unlen pwlen : Nat) :
    List Nat × List Nat × List Nat :=
  let creds := auth_get r (auth_service_uuid ctx)
  (write_to_cstr wglen creds.workgroup,
   write_to_cstr unlen creds.username,
   write_to_cstr pwlen creds.password)

/-- Registry effect of `SmbClient::new` (client.rs lines 64-87): insert the
credentials under the context identity. -/
def client_new_registry (r : AuthRegistry) (ctx : Nat) (c : SmbCredentials) : AuthRegistry :=
  auth_insert r (auth_service_uuid ctx) c

/-- Registry effect of `impl Drop for SmbClient` (client.rs lines 510-520):
remove the entry for the context identity. -/
def client_drop_registry (r : AuthRegistry) (ctx : Nat) : AuthRegistry :=
  auth_remove r (auth_service_uuid ctx)

deriving instance DecidableEq for Except

/-- Typed directory entry, from the `SmbDirent` module (not among the given
sources; only its `name` accessor and the fact that decoding a raw record can
fail matter here).  `dtype` abstracts the entry type tag. -/
structure SmbDirent where
  name : String
  dtype : Nat
deriving DecidableEq, Repr

/-- Typed directory entry with metadata, from the `SmbDirentInfo` module (not
among the given sources); `st` abstracts the embedded stat metadata. -/
structure SmbDirentInfo where
  name : String
  st : Nat
deriving DecidableEq, Repr

/-- Engine-side data consumed by one `list_dir` / `list_dirplus` call: the
three capability pointers, the descriptor returned by the opendir call (`0` =
null), the successive non-null raw records returned by the readdir calls, each
already abstracted by its decode outcome (`Except.error` = a record whose
`try_from` decode fails), and the value returned by the closedir call. -/
structure DirEngine (α : Type) where
  opendirCap : Option Unit
  readdirCap : Option Unit
  closedirCap : Option Unit
  fd : Int
  records : List (Except Unit α)
  closeResult : Int
deriving DecidableEq, Repr

/-- Outcome of a directory-listing call: the value returned to the caller and
the number of times the closedir capability was invoked. -/
structure DirOutcome (α : Type) where
  result : Except SmbError (List α)
  closeCalls : Nat
deriving DecidableEq, Repr

/-- Filter applied by the readdir loop of `list_dir` (client.rs lines
231-234): keep a decoded entry unless its name is ".", ".." or empty. -/
def keep_dirent (d : SmbDirent) : Bool :=
  d.name != "." && d.name != ".." && !d.name.isEmpty

/-- Readdir loop of `list_dir` (client.rs lines 224-247): each raw record is
decoded; a decode failure is logged and skipped; a decoded entry is appended
unless filtered out. -/
def list_dir_loop (records : List (Except Unit SmbDirent)) : List SmbDirent :=
  match records with
  | [] => []
  | Except.ok d :: rest =>
      if keep_dirent d then d :: list_dir_loop rest else list_dir_loop rest
  | Except.error _ :: rest => list_dir_loop rest

/-- Directory listing, from `SmbClient::list_dir` (client.rs lines 208-252):
resolve opendir, call it, fail with `BadFileDescriptor` on a null descriptor,
resolve closedir then readdir (each resolution may fail and return early via
the question-mark operator), run the read loop, call closedir once discarding
its result, and return the entries. -/
def list_dir (e : DirEngine SmbDirent) : DirOutcome SmbDirent :=
  match get_fn e.opendirCap with
  | Except.error err => ⟨Except.error err, 0⟩
  | Except.ok _ =>
    if e.fd = 0 then ⟨Except.error SmbError.badFileDescriptor, 0⟩
    else
      match get_fn e.closedirCap with
      | Except.error err => ⟨Except.error err, 0⟩
      | Except.ok _ =>
        match get_fn e.readdirCap with
        | Except.error err => ⟨Except.error err, 0⟩
        | Except.ok _ =>
          let entries := list_dir_loop e.records
          ⟨Except.ok entries, 1⟩

/-- Filter applied by the readdirplus loop of `list_dirplus` (client.rs lines
278-281). -/
def keep_dirent_info (d : SmbDirentInfo) : Bool :=
  d.name != "." && d.name != ".." && !d.name.isEmpty

/-- Readdirplus loop of `list_dirplus` (client.rs lines 271-297). -/
def list_dirplus_loop (records : List (Except Unit SmbDirentInfo)) : List SmbDirentInfo :=
  match records with
  | [] => []
  | Except.ok d :: rest =>
      if keep_dirent_info d then d :: list_dirplus_loop rest else list_dirplus_loop rest
  | Except.error _ :: rest => list_dirplus_loop rest

/-- Directory listing with metadata, from `SmbClient::list_dirplus` (client.rs
lines 255-302); same control flow as `list_dir` over the richer record type. -/
def list_dirplus (e : DirEngine SmbDirentInfo) : DirOutcome SmbDirentInfo :=
  match get_fn e.opendirCap with
  | Except.error err => ⟨Except.error err, 0⟩
  | Except.ok _ =>
    if e.fd = 0 then ⟨Except.error SmbError.badFileDescriptor, 0⟩
    else
      match get_fn e.closedirCap with
      | Except.error err => ⟨Except.error err, 0⟩
      | Except.ok _ =>
        match get_fn e.readdirCap with
        | Except.error err => ⟨Except.error err, 0⟩
        | Except.ok _ =>
          let entries := list_dirplus_loop e.records
          ⟨Except.ok entries, 1⟩

/-- Decode outcome as an option, used to state what the read loops keep. -/
def decode_ok {α : Type} (r : Except Unit α) : Option α :=
  match r with
  | Except.ok d => some d
  | Except.error _ => none

/-- Modelled from the spec: `utils::result_from_ptr_mut` (utils module not
among the given sources); §4.8: a null pointer sentinel is an error
(`BadFileDescriptor` for a descriptor), a non-null pointer is passed through. -/
def result_from_ptr_mut (p : Int) : Except SmbError Int :=
  if p = 0 then Except.error SmbError.badFileDescriptor else Except.ok p

/-- File open, from `SmbClient::open_with` (client.rs lines 484-506): resolve
the open capability, call it, reject a null descriptor via
`result_from_ptr_mut`, then reject a negative descriptor value with
`BadFileDescriptor`; only a descriptor passing both checks becomes a file
handle.  `fd` is the signed 64-bit value of the returned pointer. -/
def open_with (openCap : Option Unit) (fd : Int) : Except SmbError Int :=
  match get_fn openCap with
  | Except.error err => Except.error err
  | Except.ok _ =>
    match result_from_ptr_mut fd with
    | Except.error err => Except.error err
    | Except.ok d =>
      if d < 0 then Except.error SmbError.badFileDescriptor else Except.ok d

/-- Modelled from the spec: `utils::str_to_cstring` (utils module not among
the given sources); the URI and name strings are handed to the engine as C
strings, and a C string cannot contain an interior NUL byte, so conversion of
a string containing NUL fails with the `BadValue` decode error (§4.8);
otherwise the string passes through unchanged. -/
def str_to_cstring (s : String) : Except SmbError String :=
  if s.data.contains (Char.ofNat 0) then Except.error SmbError.badValue else Except.ok s

/-- Setter for the netbios name, from `SmbClient::set_netbios_name` (client.rs
lines 100-109): convert the name to a C string (propagating a conversion
failure), call the engine setter whose return carries no failure signal, and
return success. -/
def set_netbios_name (name : String) : Except SmbError Unit :=
  match str_to_cstring name with
  | Except.error err => Except.error err
  | Except.ok _ => Except.ok ()

/-- Setter for the workgroup, from `SmbClient::set_workgroup` (client.rs lines
122-131). -/
def set_workgroup (name : String) : Except SmbError Unit :=
  match str_to_cstring name with
  | Except.error err => Except.error err
  | Except.ok _ => Except.ok ()

/-- Setter for the user name, from `SmbClient::set_user` (client.rs lines
144-153). -/
def set_user (name : String) : Except SmbError Unit :=
  match str_to_cstring name with
  | Except.error err => Except.error err
  | Except.ok _ => Except.ok ()

/-- Rust `std::time::Duration`, modelled by its total length in nanoseconds. -/
structure Duration where
  nanos : Nat
deriving DecidableEq, Repr

/-- Rust `Duration::as_millis`: whole milliseconds (u128, no truncation at the
sizes a `Duration` can hold). -/
def Duration.as_millis (d : Duration) : Nat :=
  d.nanos / 1000000

/-- Rust `Duration::from_millis`. -/
def Duration.from_millis (ms : Nat) : Duration :=
  ⟨ms * 1000000⟩

/-- Rust `as c_int` cast of an unsigned 128-bit value: keep the low 32 bits
and reinterpret them as a signed two's-complement value. -/
def u128_as_c_int (n : Nat) : Int :=
  let m := n % 4294967296
  if m < 2147483648 then (m : Int) else (m : Int) - 4294967296

/-- Rust `as u64` cast of a C `int`: two's-complement reinterpretation into
the unsigned 64-bit range. -/
def c_int_as_u64 (i : Int) : Nat :=
  (i % 18446744073709551616).toNat

/-- Setter for the timeout, from `SmbClient::set_timeout` (client.rs lines
163-168): the engine is passed `timeout.as_millis() as c_int`.  The first
component is the value returned to the caller (always success: the engine
setter has no failure signal and no fallible conversion precedes it); the
second is the C `int` stored in the engine context, the engine store being
modelled as holding that value faithfully. -/
def set_timeout (d : Duration) : Except SmbError Unit × Int :=
  (Except.ok (), u128_as_c_int d.as_millis)

/-- Getter for the timeout, from `SmbClient::get_timeout` (client.rs lines
156-160): `Duration::from_millis(smbc_getTimeout(ctx) as u64)` where the
engine returns the stored C `int`. -/
def get_timeout (stored : Int) : Duration :=
  Duration.from_millis (c_int_as_u64 stored)

/-- Connection URI, from `SmbClient::build_uri` (client.rs lines 396-406). -/
def build_uri (server share : String) : String :=
  server ++ (if share.startsWith "/" then "" else "/") ++ share

/-- Request URI, from `SmbClient::uri` (client.rs lines 409-414): the client
base URI concatenated with the path. -/
def uri (base p : String) : String :=
  base ++ p

/-- Arguments of one invocation of the native rename capability, in order:
source context, source URI, destination context, destination URI. -/
structure RenameCall where
  srcCtx : Nat
  srcUri : String
  dstCtx : Nat
  dstUri : String
deriving DecidableEq, Repr

/-- Rename, from `SmbClient::rename` (client.rs lines 192-205): build both
URIs from the client's base URI, convert each to a C string, resolve the
rename capability, and invoke it passing the client's single context as both
the source and the destination context.  The result records the native call
made, or `none` when an earlier step returned before the native call. -/
def rename (ctx : Nat) (base origUrl newUrl : String) (renameCap : Option Unit) :
    Option RenameCall :=
  match str_to_cstring (uri base origUrl) with
  | Except.error _ => none
  | Except.ok o =>
    match str_to_cstring (uri base newUrl) with
    | Except.error _ => none
    | Except.ok n =>
      match get_fn renameCap with
      | Except.error _ => none
      | Except.ok _ => some ⟨ctx, o, ctx, n⟩

/-- Bytes written by `write_to_cstr` never exceed the declared buffer length,
and when anything is written the last byte written is the null terminator. -/
theorem write_to_cstr_spec (len : Nat) (s : List Nat) :
    (write_to_cstr len s).length ≤ len ∧
      (write_to_cstr len s = [] ∨ (write_to_cstr len s).getLast? = some 0) := by
  unfold write_to_cstr
  by_cases h : len = 0
  · simp [h]
  · simp only [h, if_false]
    constructor
    · have h1 : 1 ≤ len := Nat.one_le_iff_ne_zero.mpr h
      have := List.length_take_le (len - 1) s
      simp only [List.length_append, List.length_take, List.length_cons,
        List.length_nil]
      omega
    · right
      exact List.getLast?_concat _

/-- C1: For every invocation of the authentication callback and for each of
the three destination buffers (workgroup, username, password), the number of
bytes written by the callback never exceeds the buffer length supplied by the
engine, including when the credential string is exactly buffer-length or
longer, and whenever anything is written the final written byte is the null
terminator, placed within bounds. -/
theorem auth_wrapper_writes_within_bounds (r : AuthRegistry) (ctx : Nat)
    (wglen unlen pwlen : Nat) :
    ((auth_wrapper r ctx wglen unlen pwlen).1.length ≤ wglen ∧
        ((auth_wrapper r ctx wglen unlen pwlen).1 = [] ∨
          (auth_wrapper r ctx wglen unlen pwlen).1.getLast? = some 0)) ∧
      ((auth_wrapper r ctx wglen unlen pwlen).2.1.length ≤ unlen ∧
        ((auth_wrapper r ctx wglen unlen pwlen).2.1 = [] ∨
          (auth_wrapper r ctx wglen unlen pwlen).2.1.getLast? = some 0)) ∧
      ((auth_wrapper r ctx wglen unlen pwlen).2.2.length ≤ pwlen ∧
        ((auth_wrapper r ctx wglen unlen pwlen).2.2 = [] ∨
          (auth_wrapper r ctx wglen unlen pwlen).2.2.getLast? = some 0)) :=
  ⟨write_to_cstr_spec _ _, write_to_cstr_spec _ _, write_to_cstr_spec _ _⟩

/-- C2: when the capability lookup for a needed operation returns an absent
function pointer, the operation fails with `UnsupportedOperation`, an error
distinct from every protocol-level `io` failure; shown for the shared
resolver `get_fn` and for the embedded operations that use it. -/
theorem get_fn_missing_capability_unsupported :
    (∀ (T : Type) (f : Option T), f = none →
        get_fn f = Except.error SmbError.unsupportedOperation) ∧
      (∀ code : Int, SmbError.unsupportedOperation ≠ SmbError.io code) ∧
      (∀ e : DirEngine SmbDirent, e.opendirCap = none →
        (list_dir e).result = Except.error SmbError.unsupportedOperation) ∧
      (∀ e : DirEngine SmbDirentInfo, e.opendirCap = none →
        (list_dirplus e).result = Except.error SmbError.unsupportedOperation) ∧
      (∀ fd : Int, open_with none fd = Except.error SmbError.unsupportedOperation) := by
  refine ⟨?_, ?_, ?_, ?_, ?_⟩
  · intro T f hf; subst hf; rfl
  · intro code h; exact SmbError.noConfusion h
  · intro e he; simp [list_dir, he, get_fn]
  · intro e he; simp [list_dirplus, he, get_fn]
  · intro fd; rfl

/-- Witness for C2 at a concrete missing capability. -/
theorem get_fn_missing_capability_unsupported_witness :
    get_fn (none : Option Unit) = Except.error SmbError.unsupportedOperation ∧
      (list_dir ⟨none, none, none, 1, [], 0⟩).result =
        Except.error SmbError.unsupportedOperation :=
  ⟨get_fn_missing_capability_unsupported.1 Unit none rfl,
    get_fn_missing_capability_unsupported.2.2.1 ⟨none, none, none, 1, [], 0⟩ rfl⟩

/-- Engine data exhibiting the failure of C3 as stated: opendir succeeds with
a non-null descriptor and the closedir capability is present, but the readdir
capability is absent. -/
def readdir_missing_engine : DirEngine SmbDirent :=
  ⟨some (), none, some (), 1, [], 0⟩

/-- C3 is false as stated: with a non-null directory descriptor and the
close-directory capability present, but the readdir capability absent,
`list_dir` returns early through the capability-resolution error path without
ever invoking the close-directory capability (zero close calls, not one). -/
theorem list_dir_close_skipped_counterexample :
    readdir_missing_engine.fd ≠ 0 ∧
      readdir_missing_engine.opendirCap = some () ∧
      readdir_missing_engine.closedirCap = some () ∧
      (list_dir readdir_missing_engine).closeCalls = 0 := by
  decide

/-- C3 amended: in `list_dir` and `list_dirplus`, whenever the open-directory
call returns a non-null descriptor and the closedir and readdir capability
lookups both succeed, the close-directory capability is invoked exactly once
before the operation returns — including when zero entries were read — and
the close result is not propagated (the caller-visible result is independent
of it). -/
theorem list_dir_close_exactly_once
    (oc rc cc : Option Unit) (fd : Int) (rs : List (Except Unit SmbDirent))
    (rsp : List (Except Unit SmbDirentInfo)) (x y : Int)
    (ho : oc = some ()) (hr : rc = some ()) (hc : cc = some ()) (hfd : fd ≠ 0) :
    (list_dir ⟨oc, rc, cc, fd, rs, x⟩).closeCalls = 1 ∧
      (list_dir ⟨oc, rc, cc, fd, rs, x⟩).result =
        (list_dir ⟨oc, rc, cc, fd, rs, y⟩).result ∧
      (list_dirplus ⟨oc, rc, cc, fd, rsp, x⟩).closeCalls = 1 ∧
      (list_dirplus ⟨oc, rc, cc, fd, rsp, x⟩).result =
        (list_dirplus ⟨oc, rc, cc, fd, rsp, y⟩).result := by
  subst ho hr hc
  simp [list_dir, list_dirplus, get_fn, hfd]

/-- Witness for C3's amended statement at a concrete engine with zero
entries. -/
theorem list_dir_close_exactly_once_witness :
    (list_dir ⟨some (), some (), some (), 1, [], 0⟩).closeCalls = 1 :=
  (list_dir_close_exactly_once (some ()) (some ()) (some ()) 1 [] [] 0 0
    rfl rfl rfl (by decide)).1

/-- C4 is false as stated: a name containing an interior NUL byte fails the
C-string conversion step that precedes the engine call, so the setter reports
an error rather than success. -/
theorem set_netbios_name_interior_nul_counterexample :
    set_netbios_name "a\x00b" ≠ Except.ok () := by
  decide

/-- C4 amended: every setter whose input passes the C-string conversion
returns success — `set_netbios_name`, `set_workgroup` and `set_user` for every
name without an interior NUL byte, and `set_timeout` for every duration —
even though the underlying engine setter offers no failure signal. -/
theorem setters_succeed (name : String)
    (h : name.data.contains (Char.ofNat 0) = false) (d : Duration) :
    set_netbios_name name = Except.ok () ∧
      set_workgroup name = Except.ok () ∧
      set_user name = Except.ok () ∧
      (set_timeout d).1 = Except.ok () := by
  have h' : Char.ofNat 0 ∉ name.data := by simpa using h
  simp [set_netbios_name, set_workgroup, set_user, set_timeout, str_to_cstring, h']

/-- Witness for C4's amended statement at a concrete NUL-free name. -/
theorem setters_succeed_witness :
    set_netbios_name "foobar" = Except.ok () :=
  (setters_succeed "foobar" (by decide) ⟨0⟩).1

/-- Read loop of `list_dir` keeps exactly the successfully decoded records
whose name survives the filter, in order. -/
theorem list_dir_loop_eq (rs : List (Except Unit SmbDirent)) :
    list_dir_loop rs = (rs.filterMap decode_ok).filter keep_dirent := by
  induction rs with
  | nil => rfl
  | cons r rest ih =>
    cases r with
    | ok d =>
      by_cases h : keep_dirent d <;>
        simp [list_dir_loop, decode_ok, h, ih, List.filter_cons]
    | error e => simp [list_dir_loop, decode_ok, ih]

/-- Read loop of `list_dirplus` keeps exactly the successfully decoded records
whose name survives the filter, in order. -/
theorem list_dirplus_loop_eq (rs : List (Except Unit SmbDirentInfo)) :
    list_dirplus_loop rs = (rs.filterMap decode_ok).filter keep_dirent_info := by
  induction rs with
  | nil => rfl
  | cons r rest ih =>
    cases r with
    | ok d =>
      by_cases h : keep_dirent_info d <;>
        simp [list_dirplus_loop, decode_ok, h, ih, List.filter_cons]
    | error e => simp [list_dirplus_loop, decode_ok, ih]

/-- C5: for every sequence of raw directory records, the entry list returned
by `list_dir` / `list_dirplus` contains exactly the records that decode
successfully and whose name is not ".", "..", or empty; decode failures are
skipped without aborting enumeration or affecting other records, and the
name filter applies only to successfully decoded records. -/
theorem list_dir_filters_decoded_entries
    (oc rc cc : Option Unit) (fd : Int) (rs : List (Except Unit SmbDirent))
    (rsp : List (Except Unit SmbDirentInfo)) (x : Int)
    (ho : oc = some ()) (hr : rc = some ()) (hc : cc = some ()) (hfd : fd ≠ 0) :
    (list_dir ⟨oc, rc, cc, fd, rs, x⟩).result =
        Except.ok ((rs.filterMap decode_ok).filter keep_dirent) ∧
      (list_dirplus ⟨oc, rc, cc, fd, rsp, x⟩).result =
        Except.ok ((rsp.filterMap decode_ok).filter keep_dirent_info) := by
  subst ho hr hc
  simp [list_dir, list_dirplus, get_fn, hfd, list_dir_loop_eq, list_dirplus_loop_eq]

/-- Raw record sequence exercising every skip path: a kept entry, the "." and
".." entries, a record that fails to decode, and an empty-name entry. -/
def mixed_records : List (Except Unit SmbDirent) :=
  [Except.ok ⟨"abc", 0⟩, Except.ok ⟨".", 0⟩, Except.error (),
   Except.ok ⟨"..", 0⟩, Except.ok ⟨"", 0⟩]

/-- Witness for C5 on a concrete record sequence containing ".", "..", an
empty name and a decode failure. -/
theorem list_dir_filters_decoded_entries_witness :
    (list_dir ⟨some (), some (), some (), 1, mixed_records, 0⟩).result =
      Except.ok ((mixed_records.filterMap decode_ok).filter keep_dirent) :=
  (list_dir_filters_decoded_entries (some ()) (some ()) (some ()) 1
    mixed_records [] 0 rfl rfl rfl (by decide)).1

/-- C6: `open_with` performs both validity checks on the descriptor returned
by the open capability: a null descriptor is an error, a non-null descriptor
with a negative value fails with `BadFileDescriptor`, and a file handle is
returned only for the descriptors passing both checks. -/
theorem open_with_descriptor_checks (cap : Option Unit) (fd : Int)
    (hc : cap = some ()) :
    (fd = 0 → open_with cap fd = Except.error SmbError.badFileDescriptor) ∧
      (fd < 0 → open_with cap fd = Except.error SmbError.badFileDescriptor) ∧
      (∀ d : Int, open_with cap fd = Except.ok d → d = fd ∧ fd ≠ 0 ∧ 0 ≤ fd) := by
  subst hc
  refine ⟨?_, ?_, ?_⟩
  · intro h; simp [open_with, result_from_ptr_mut, get_fn, h]
  · intro h
    have h0 : fd ≠ 0 := by omega
    simp [open_with, result_from_ptr_mut, get_fn, h0, h]
  · intro d hd
    by_cases h0 : fd = 0
    · simp [open_with, result_from_ptr_mut, get_fn, h0] at hd
    · by_cases hneg : fd < 0
      · simp [open_with, result_from_ptr_mut, get_fn, h0, hneg] at hd
      · simp [open_with, result_from_ptr_mut, get_fn, h0, hneg] at hd
        omega

/-- Witness for C6 at a concrete negative descriptor value. -/
theorem open_with_descriptor_checks_witness :
    open_with (some ()) (-3) = Except.error SmbError.badFileDescriptor :=
  (open_with_descriptor_checks (some ()) (-3) rfl).2.1 (by decide)

/-- Lookup on a registry with one more entry. -/
theorem auth_lookup_cons (k' : String) (c : SmbCredentials) (rest : AuthRegistry)
    (k : String) :
    auth_lookup ((k', c) :: rest) k = if k' = k then some c else auth_lookup rest k :=
  rfl

/-- Removal on a registry with one more entry. -/
theorem auth_remove_cons (k' : String) (c : SmbCredentials) (rest : AuthRegistry)
    (k : String) :
    auth_remove ((k', c) :: rest) k =
      if k' = k then auth_remove rest k else (k', c) :: auth_remove rest k := by
  unfold auth_remove
  rw [List.filter_cons]
  by_cases h : k' = k <;> simp [h]

/-- Removing a key from the registry makes lookups of that key fail. -/
theorem auth_lookup_remove_self (r : AuthRegistry) (k : String) :
    auth_lookup (auth_remove r k) k = none := by
  induction r with
  | nil => rfl
  | cons p rest ih =>
    obtain ⟨k', c⟩ := p
    rw [auth_remove_cons]
    by_cases h : k' = k
    · rw [if_pos h]
      exact ih
    · rw [if_neg h, auth_lookup_cons, if_neg h]
      exact ih

/-- Removing a key from the registry leaves every other key's lookup
unchanged. -/
theorem auth_lookup_remove_other (r : AuthRegistry) (k0 k : String) (h : k ≠ k0) :
    auth_lookup (auth_remove r k0) k = auth_lookup r k := by
  induction r with
  | nil => rfl
  | cons p rest ih =>
    obtain ⟨k', c⟩ := p
    rw [auth_remove_cons, auth_lookup_cons]
    by_cases hp : k' = k0
    · rw [if_pos hp]
      have hpk : k' ≠ k := by
        intro hh
        rw [hh] at hp
        exact h hp
      rw [if_neg hpk]
      exact ih
    · rw [if_neg hp, auth_lookup_cons]
      by_cases hpk : k' = k
      · rw [if_pos hpk, if_pos hpk]
      · rw [if_neg hpk, if_neg hpk]
        exact ih

/-- C7: for every constructed client, the Credential Registry holds the
client's credentials under its context identity from construction on, the
drop handler removes the entry for that identity (no entry for it survives),
and entries under every other identity are untouched by the removal. -/
theorem registry_entry_lifecycle (r : AuthRegistry) (ctx : Nat) (c : SmbCredentials) :
    auth_lookup (client_new_registry r ctx c) (auth_service_uuid ctx) = some c ∧
      auth_lookup (client_drop_registry r ctx) (auth_service_uuid ctx) = none ∧
      (∀ k : String, k ≠ auth_service_uuid ctx →
        auth_lookup (client_drop_registry r ctx) k = auth_lookup r k) := by
  refine ⟨?_, auth_lookup_remove_self r _, ?_⟩
  · simp [client_new_registry, auth_insert, auth_lookup]
  · intro k hk
    exact auth_lookup_remove_other r _ k hk

/-- Witness for C7 at a concrete registry, identity and unrelated key. -/
theorem registry_entry_lifecycle_witness :
    auth_lookup (client_drop_registry [(auth_service_uuid 7, ⟨[], [], [], [], []⟩)] 7) "8" =
      auth_lookup [(auth_service_uuid 7, ⟨[], [], [], [], []⟩)] "8" :=
  (registry_entry_lifecycle [(auth_service_uuid 7, ⟨[], [], [], [], []⟩)] 7
    ⟨[], [], [], [], []⟩).2.2 "8" (by decide)

/-- C9 is false as stated: a duration of one nanosecond is accepted by
`set_timeout` (which never rejects a value), but reading the timeout back
yields zero, not the original duration — the sub-millisecond part is lost by
the milliseconds conversion. -/
theorem timeout_roundtrip_counterexample :
    get_timeout (set_timeout ⟨1⟩).2 ≠ (⟨1⟩ : Duration) := by
  decide

/-- C9 amended: for every duration that is a whole number of milliseconds
whose millisecond count fits in a nonnegative C `int` (below 2^31), calling
`set_timeout` and then `get_timeout` on the stored value returns the same
duration. -/
theorem get_timeout_set_timeout_roundtrip (d : Duration)
    (h1 : 1000000 ∣ d.nanos) (h2 : d.nanos / 1000000 < 2147483648) :
    get_timeout (set_timeout d).2 = d := by
  obtain ⟨n⟩ := d
  simp only [Duration.as_millis] at h2
  have hmod : n / 1000000 % 4294967296 = n / 1000000 :=
    Nat.mod_eq_of_lt (by omega)
  have hcast : u128_as_c_int (n / 1000000) = ((n / 1000000 : Nat) : Int) := by
    unfold u128_as_c_int
    rw [hmod, if_pos h2]
  have hback : c_int_as_u64 ((n / 1000000 : Nat) : Int) = n / 1000000 := by
    unfold c_int_as_u64
    rw [Int.emod_eq_of_lt (by positivity)
      (by exact_mod_cast lt_trans h2 (by norm_num))]
    exact Int.toNat_natCast _
  show Duration.from_millis (c_int_as_u64 (u128_as_c_int (Duration.as_millis ⟨n⟩))) = ⟨n⟩
  unfold Duration.as_millis
  rw [hcast, hback]
  unfold Duration.from_millis
  exact congrArg Duration.mk (Nat.div_mul_cancel h1)

/-- Witness for C9's amended statement at 3000 ms. -/
theorem get_timeout_set_timeout_roundtrip_witness :
    get_timeout (set_timeout ⟨3000000000⟩).2 = (⟨3000000000⟩ : Duration) :=
  get_timeout_set_timeout_roundtrip ⟨3000000000⟩ (by norm_num) (by norm_num)

/-- The C-string conversion passes a successful string through unchanged. -/
theorem str_to_cstring_ok (s t : String) (h : str_to_cstring s = Except.ok t) :
    t = s := by
  unfold str_to_cstring at h
  split at h
  · exact Except.noConfusion h
  · injection h with h'
    exact h'.symm

/-- C10: whenever `rename` reaches the native rename capability, it passes
the client's single engine context as both the source and the destination
context, and both URIs are built from the same client base URI. -/
theorem rename_single_context (ctx : Nat) (base origUrl newUrl : String)
    (cap : Option Unit) (call : RenameCall)
    (h : rename ctx base origUrl newUrl cap = some call) :
    call.srcCtx = ctx ∧ call.dstCtx = ctx ∧
      call.srcUri = uri base origUrl ∧ call.dstUri = uri base newUrl := by
  unfold rename at h
  cases ho : str_to_cstring (uri base origUrl) with
  | error e => rw [ho] at h; exact Option.noConfusion h
  | ok o =>
    rw [ho] at h
    cases hn : str_to_cstring (uri base newUrl) with
    | error e => rw [hn] at h; exact Option.noConfusion h
    | ok n =>
      rw [hn] at h
      cases cap with
      | none => exact Option.noConfusion h
      | some u =>
        have hcall : call = ⟨ctx, o, ctx, n⟩ := by
          cases h
          rfl
        subst hcall
        exact ⟨rfl, rfl, str_to_cstring_ok _ _ ho, str_to_cstring_ok _ _ hn⟩

/-- Witness for C10 at a concrete base URI and paths. -/
theorem rename_single_context_witness :
    (⟨1, uri "smb://srv/share" "/a", 1, uri "smb://srv/share" "/b"⟩ : RenameCall).srcCtx = 1 :=
  (rename_single_context 1 "smb://srv/share" "/a" "/b" (some ())
    ⟨1, uri "smb://srv/share" "/a", 1, uri "smb://srv/share" "/b"⟩ rfl).1

end Pavao
